import Mathlib

/- Shallow embedding of the Telegram image-generation bot in src/Index.js.
   The registry (users.json), usage ledger (usage.json) and in-memory session
   map are modelled as total functions from string keys; every bot handler is
   a pure function from an incoming event and the current state to the next
   state together with the trace of outward-visible effects. -/

namespace Auto40

/-- Approval status of a user, as stored in users.json. -/
inductive UserStatus
  | pending
  | approved
  | denied
deriving DecidableEq

/-- One record of the user registry (users.json). -/
structure UserRecord where
  status : UserStatus
  username : Option String
deriving DecidableEq

/-- In-memory session kept while a user composes a generation request. -/
structure Session where
  modelName : Option String
  baseImages : List String
  refImages : List String
  instagramHandles : List String
deriving DecidableEq

/-- The session object the handlers create when none exists yet. -/
def freshSession : Session :=
  { modelName := none, baseImages := [], refImages := [], instagramHandles := [] }

/-- The whole mutable state of the process: user registry, usage ledger
    (keyed by calendar day, then chat id) and the session map. -/
structure BotState where
  users : String → Option UserRecord
  usage : String → String → Nat
  sessions : String → Option Session

/-- Empty stores: no user records, zero usage, no sessions. -/
def initState : BotState :=
  { users := fun _ => none, usage := fun _ _ => 0, sessions := fun _ => none }

/-- Outward-visible effects of one handler run, in emission order. -/
inductive Out
  | reply (chatId text : String)
  | replyMarkup (chatId text : String) (buttons : List String)
  | sendPhoto (chatId url caption : String)
  | backendCall (baseImage refImage prompt : String)
  | answerCb (text : Option String)
  | editMessage (text : String)
  | sendMessage (chatId text : String)
  | sendMessageMarkup (chatId text : String) (buttons : List String)
deriving DecidableEq

/-- JavaScript falsiness of an optional string: null/undefined or "". -/
def jsFalsyStr : Option String → Bool
  | none => true
  | some s => s == ""

/-- JavaScript `s || null` on a string value. -/
def jsOrNull (s : String) : Option String :=
  if s = "" then none else some s

/-- Boolean prefix test on character lists (semantics of String.startsWith). -/
def lead : List Char → List Char → Bool
  | [], _ => true
  | _ :: _, [] => false
  | a :: as, b :: bs => a == b && lead as bs

/-- JavaScript `s.startsWith(p)`. -/
def jsStartsWith (s p : String) : Bool :=
  lead p.data s.data

/-- JavaScript `s.replace(pat, repl)`: replaces the first occurrence only. -/
def jsReplaceFirst (s pat repl : String) : String :=
  match s.splitOn pat with
  | [] => s
  | [x] => x
  | h :: t => h ++ repl ++ String.intercalate pat t

/-- getUserStatus: status of the stored record, or null if absent. -/
def getUserStatus (users : String → Option UserRecord) (chatId : String) : Option UserStatus :=
  (users chatId).map UserRecord.status

/-- ensureUserPending: creates a pending record when none exists; returns
    whether a record was created, together with the updated registry. -/
def ensureUserPending (users : String → Option UserRecord) (chatId username : String) :
    Bool × (String → Option UserRecord) :=
  match users chatId with
  | some _ => (false, users)
  | none =>
      (true, fun k => if k = chatId then
          some { status := UserStatus.pending, username := jsOrNull username }
        else users k)

/-- setUserStatus: overwrites the status, creating the record if absent and
    keeping the stored username otherwise. -/
def setUserStatus (users : String → Option UserRecord) (chatId : String) (status : UserStatus) :
    String → Option UserRecord :=
  fun k => if k = chatId then
      some { status := status, username := (users chatId).bind UserRecord.username }
    else users k

/-- getUsageCount: today's count for a user, defaulting to 0. -/
def getUsageCount (usage : String → String → Nat) (today chatId : String) : Nat :=
  usage today chatId

/-- addUsage: adds a delta to today's count for a user, creating entries. -/
def addUsage (usage : String → String → Nat) (today chatId : String) (add : Nat) :
    String → String → Nat :=
  fun d c => if d = today ∧ c = chatId then usage today chatId + add else usage d c

/-- One response of the Wavespeed backend, reduced to the three shapes the
    bot probes for an image URL (data.image_url, data[0].url, output[0].url). -/
structure WavespeedResponse where
  dataImageUrl : Option String
  dataFirstUrl : Option String
  outputFirstUrl : Option String
deriving DecidableEq

/-- Outcome of one backend call: the awaited promise threw, or resolved. -/
inductive BackendResult
  | thrown
  | ok (resp : WavespeedResponse)
deriving DecidableEq

/-- First JavaScript-truthy entry of a list of optional strings ("" is falsy). -/
def firstTruthy : List (Option String) → Option String
  | [] => none
  | none :: rest => firstTruthy rest
  | some s :: rest => if s = "" then firstTruthy rest else some s

/-- `wres?.data?.image_url || wres?.data?.[0]?.url || wres?.output?.[0]?.url || null`
    followed by the truthiness test `if (url)`. -/
def extractImageUrl (w : WavespeedResponse) : Option String :=
  firstTruthy [w.dataImageUrl, w.dataFirstUrl, w.outputFirstUrl]

/-- URL delivered by one backend call, if any. -/
def extractOf : BackendResult → Option String
  | BackendResult.thrown => none
  | BackendResult.ok resp => extractImageUrl resp

/-- Message texts of the handlers, verbatim from the source. -/
def startMsg : String := "🔒 This bot is private. Tap Request Access to ask the admin for permission."

def notApprovedMsg : String := "🔒 Not approved."

def notApprovedYetMsg : String := "🔒 You are not approved yet. Tap Request Access first."

def photoNotApprovedMsg : String := "🔒 You\u0027re not approved yet. Tap Request Access or wait for admin approval."

def setModelFirstMsg : String := "Set model name first with /model <Name> and upload base images."

def needBaseMsg : String := "Upload at least one base image (model)."

def needRefMsg : String := "Upload at least one reference image (style/pose) or use /fetch_instagram."

def usageHintModelMsg : String := "Usage: /model <Model Name>"

def modelSetMsg (m : String) : String :=
  s!"Model name set to: {m}. Now send base images (1-5), then reference images (1-3) or use /fetch_instagram <username>."

def ackRequestMsg : String := "Access request sent to admin."

def requestSentMsg : String := "✅ Request sent. You\u0027ll be notified when approved."

def accessRequestMsg (username chatId : String) : String :=
  s!"🆕 Access Request\nUser: @{username}\nChat ID: {chatId}"

def ackApprovedMsg : String := "User approved."

def ackDeniedMsg : String := "User denied."

def approvedNotifyMsg : String := "✅ You have been approved! You can now use /model and /generate."

def deniedNotifyMsg : String := "🚫 Your access request was denied by the admin."

def approvedEditMsg (cid : String) : String := s!"Approved user {cid}"

def deniedEditMsg (cid : String) : String := s!"Denied user {cid}"

def quotaMsg (used limit total : Nat) : String :=
  s!"⚠️ Daily limit exceeded. You have used {used}/{limit} images today. This request would generate {total}."

def generatingMsg (n : Nat) : String :=
  s!"Generating {n} images (may take ~20-60s)..."

def genErrorMsg : String := "⚠️ Error during generation. Try again later."

def noImageMsg : String := "⚠️ Generation returned no image for one variation."

def doneMsg (n : Nat) : String :=
  s!"✅ Done — {n} images generated. Today\u0027s usage updated."

def resultCaption (n total : Nat) : String :=
  s!"Result {n}/{total}"

def promptFor (modelName : String) : String :=
  s!"A realistic portrait of {modelName}, matching the pose/outfit of the reference, ultra realistic, cinematic lighting, consistent face, photo quality."

def fetchUsageMsg : String := "Usage: /fetch_instagram <username>"

def noImagesFoundMsg : String := "No images found."

def fetchingMsg (username : String) : String :=
  s!"Fetching recent images for @{username}..."

def fetchFailedMsg (err : String) : String :=
  s!"Failed to fetch Instagram images: {err}"

def fetchAddedMsg (n : Nat) (username : String) : String :=
  s!"Added {n} reference images from @{username}. Send /generate when ready."

def baseAddedMsg (n : Nat) : String :=
  s!"✅ Base image added (total base images: {n})."

def refAddedMsg (n : Nat) : String :=
  s!"✅ Reference image added (total refs: {n}). Send /generate when ready."

def statusName : UserStatus → String
  | UserStatus.pending => "pending"
  | UserStatus.approved => "approved"
  | UserStatus.denied => "denied"

/-- Generation plan: `s.refImages.slice(0, 3)`. -/
def planRefs (s : Session) : List String :=
  s.refImages.take 3

/-- Fixed number of variations per selected reference. -/
def variationsPerRef : Nat := 2

/-- `totalImages = refs.length * variationsPerRef`. -/
def planTotal (s : Session) : Nat :=
  (planRefs s).length * variationsPerRef

/-- The sequence of reference images the nested generation loop visits:
    each selected reference repeated once per variation, in order. -/
def callListOf (s : Session) : List String :=
  (planRefs s).flatMap (fun r => List.replicate variationsPerRef r)

/-- The generation loop: one backend call per entry of the call list, indexed
    from `i`; `acc` carries the URLs generated so far (generatedUrls). Returns
    the final generatedUrls and the trace of effects of the loop body. -/
def runCalls (o : Nat → BackendResult) (chatId base prompt : String) (total : Nat) :
    List String → Nat → List String → List String × List Out
  | [], _, acc => (acc, [])
  | ref :: rest, i, acc =>
      match o i with
      | BackendResult.thrown =>
          let p := runCalls o chatId base prompt total rest (i + 1) acc
          (p.1, Out.backendCall base ref prompt :: Out.reply chatId genErrorMsg :: p.2)
      | BackendResult.ok resp =>
          match extractImageUrl resp with
          | some url =>
              let acc2 := acc ++ [url]
              let p := runCalls o chatId base prompt total rest (i + 1) acc2
              (p.1, Out.backendCall base ref prompt ::
                Out.sendPhoto chatId url (resultCaption acc2.length total) :: p.2)
          | none =>
              let p := runCalls o chatId base prompt total rest (i + 1) acc
              (p.1, Out.backendCall base ref prompt :: Out.reply chatId noImageMsg :: p.2)

/-- bot.start handler. -/
def startHandler (chatId : String) (st : BotState) : BotState × List Out :=
  (st, [Out.replyMarkup chatId startMsg [s!"request_{chatId}"]])

/-- bot.on callback_query handler; `ADMIN` is the configured admin identity,
    `fromId`/`fromUsername` describe the invoking identity. -/
def callbackHandler (ADMIN : String) (data : Option String)
    (fromId fromUsername : String) (st : BotState) : BotState × List Out :=
  match data with
  | none => (st, [Out.answerCb none])
  | some d =>
      if jsStartsWith d ("request_") then
        let pr := ensureUserPending st.users fromId fromUsername
        ({ st with users := pr.2 },
         [Out.answerCb (some ackRequestMsg),
          Out.reply fromId requestSentMsg,
          Out.sendMessageMarkup ADMIN (accessRequestMsg fromUsername fromId)
            [s!"approve_{fromId}", s!"deny_{fromId}"]])
      else if jsStartsWith d ("approve_") && fromId == ADMIN then
        let cid := (d.splitOn ("_")).getD 1 ""
        ({ st with users := setUserStatus st.users cid UserStatus.approved },
         [Out.answerCb (some ackApprovedMsg),
          Out.sendMessage cid approvedNotifyMsg,
          Out.editMessage (approvedEditMsg cid)])
      else if jsStartsWith d ("deny_") && fromId == ADMIN then
        let cid := (d.splitOn ("_")).getD 1 ""
        ({ st with users := setUserStatus st.users cid UserStatus.denied },
         [Out.answerCb (some ackDeniedMsg),
          Out.sendMessage cid deniedNotifyMsg,
          Out.editMessage (deniedEditMsg cid)])
      else (st, [Out.answerCb none])

/-- JavaScript `text.split(" ")` over characters; `acc` holds the reversed
    current field. -/
def splitOnSpace : List Char → List Char → List (List Char)
  | [], acc => [acc.reverse]
  | c :: rest, acc =>
      if c = ' ' then acc.reverse :: splitOnSpace rest []
      else splitOnSpace rest (c :: acc)

/-- JavaScript `parts.join(" ")` over characters. -/
def joinSpace : List (List Char) → List Char
  | [] => []
  | [x] => x
  | x :: rest => x ++ ' ' :: joinSpace rest

/-- JavaScript `s.trim()` over characters: strips whitespace on both ends. -/
def trimChars (l : List Char) : List Char :=
  ((l.dropWhile Char.isWhitespace).reverse.dropWhile Char.isWhitespace).reverse

/-- Argument parsing of /model: `ctx.message.text.split(" ").slice(1).join(" ").trim()`. -/
def parseModelName (text : String) : String :=
  String.mk (trimChars (joinSpace ((splitOnSpace text.data []).drop 1)))

/-- bot.command model handler. -/
def modelHandler (text chatId : String) (st : BotState) : BotState × List Out :=
  let modelName := parseModelName text
  if modelName = "" then (st, [Out.reply chatId usageHintModelMsg])
  else if getUserStatus st.users chatId ≠ some UserStatus.approved then
    (st, [Out.reply chatId notApprovedYetMsg])
  else
    let s := (st.sessions chatId).getD freshSession
    let s2 := { s with modelName := some modelName }
    ({ st with sessions := fun k => if k = chatId then some s2 else st.sessions k },
     [Out.reply chatId (modelSetMsg modelName)])

/-- bot.command status handler. -/
def statusHandler (LIMIT : Nat) (today chatId : String) (st : BotState) : BotState × List Out :=
  let statusText := match st.users chatId with
    | some r => statusName r.status
    | none => "none"
  let n := getUsageCount st.usage today chatId
  (st, [Out.reply chatId s!"Status: {statusText}\nToday usage: {n}/{LIMIT}"])

/-- bot.command fetch_instagram handler; `fetched` is the outcome of the
    awaited external fetchInstagram call (error message or image URLs). -/
def fetchInstagramHandler (fetched : Except String (List String))
    (text chatId : String) (st : BotState) : BotState × List Out :=
  if getUserStatus st.users chatId ≠ some UserStatus.approved then
    (st, [Out.reply chatId notApprovedMsg])
  else
    let parts := (text.splitOn (" ")).drop 1
    let p0 := parts.headD ""
    if p0 = "" then (st, [Out.reply chatId fetchUsageMsg])
    else
      let username := jsReplaceFirst p0 ("@") ("")
      match fetched with
      | Except.error e =>
          (st, [Out.reply chatId (fetchingMsg username), Out.reply chatId (fetchFailedMsg e)])
      | Except.ok imgs =>
          if imgs.length = 0 then
            (st, [Out.reply chatId (fetchingMsg username), Out.reply chatId noImagesFoundMsg])
          else
            let s := (st.sessions chatId).getD freshSession
            let s2 := { s with refImages := s.refImages ++ imgs }
            ({ st with sessions := fun k => if k = chatId then some s2 else st.sessions k },
             [Out.reply chatId (fetchingMsg username),
              Out.reply chatId (fetchAddedMsg imgs.length username)])

/-- bot.command generate handler; `o` gives the outcome of the i-th backend
    call of the batch, `today` is the value of todayStr() during the run. -/
def generateHandler (LIMIT : Nat) (o : Nat → BackendResult) (today chatId : String)
    (st : BotState) : BotState × List Out :=
  if getUserStatus st.users chatId ≠ some UserStatus.approved then
    (st, [Out.reply chatId notApprovedMsg])
  else
    match st.sessions chatId with
    | none => (st, [Out.reply chatId setModelFirstMsg])
    | some s =>
        if jsFalsyStr s.modelName then (st, [Out.reply chatId setModelFirstMsg])
        else if s.baseImages.length < 1 then (st, [Out.reply chatId needBaseMsg])
        else if s.refImages.length < 1 then (st, [Out.reply chatId needRefMsg])
        else
          let totalImages := planTotal s
          let usedToday := getUsageCount st.usage today chatId
          if LIMIT < usedToday + totalImages then
            (st, [Out.reply chatId (quotaMsg usedToday LIMIT totalImages)])
          else
            let prompt := promptFor (s.modelName.getD "")
            let base0 := s.baseImages.headD ""
            let p := runCalls o chatId base0 prompt totalImages (callListOf s) 0 []
            ({ st with
                usage := addUsage st.usage today chatId totalImages,
                sessions := fun k => if k = chatId then none else st.sessions k },
             Out.reply chatId (generatingMsg totalImages) ::
               p.2 ++ [Out.reply chatId (doneMsg p.1.length)])

/-- bot.on message handler, for an incoming photo whose largest size resolves
    to `fileUrl`. -/
def photoHandler (chatId username fileUrl : String) (st : BotState) : BotState × List Out :=
  if getUserStatus st.users chatId ≠ some UserStatus.approved then
    let pr := ensureUserPending st.users chatId username
    ({ st with users := pr.2 }, [Out.reply chatId photoNotApprovedMsg])
  else
    let s := (st.sessions chatId).getD freshSession
    if jsFalsyStr s.modelName ∨ s.baseImages.length < 2 then
      let s2 := { s with baseImages := s.baseImages ++ [fileUrl] }
      ({ st with sessions := fun k => if k = chatId then some s2 else st.sessions k },
       [Out.reply chatId (baseAddedMsg s2.baseImages.length)])
    else
      let s2 := { s with refImages := s.refImages ++ [fileUrl] }
      ({ st with sessions := fun k => if k = chatId then some s2 else st.sessions k },
       [Out.reply chatId (refAddedMsg s2.refImages.length)])

/-- One inbound event, processed to completion by its handler. -/
inductive Event
  | start (chatId : String)
  | callback (data : Option String) (fromId fromUsername : String)
  | modelCmd (text chatId : String)
  | statusCmd (today chatId : String)
  | fetchCmd (fetched : Except String (List String)) (text chatId : String)
  | generateCmd (o : Nat → BackendResult) (today chatId : String)
  | photo (chatId username fileUrl : String)

/-- State transition of one event. -/
def step (ADMIN : String) (LIMIT : Nat) (st : BotState) : Event → BotState
  | Event.start c => (startHandler c st).1
  | Event.callback d f fu => (callbackHandler ADMIN d f fu st).1
  | Event.modelCmd t c => (modelHandler t c st).1
  | Event.statusCmd td c => (statusHandler LIMIT td c st).1
  | Event.fetchCmd r t c => (fetchInstagramHandler r t c st).1
  | Event.generateCmd o td c => (generateHandler LIMIT o td c st).1
  | Event.photo c un f => (photoHandler c un f st).1

/-- State after a sequence of events starting from the empty stores. -/
def run (ADMIN : String) (LIMIT : Nat) (evs : List Event) : BotState :=
  evs.foldl (step ADMIN LIMIT) initState

/-- URLs successfully extracted from the calls for a list of references,
    starting at call index `i`, in call order. -/
def extractedFrom (o : Nat → BackendResult) : List String → Nat → List String
  | [], _ => []
  | _ :: rest, i =>
      match extractOf (o i) with
      | some u => u :: extractedFrom o rest (i + 1)
      | none => extractedFrom o rest (i + 1)

/-- Photo deliveries for a run of successive successes when `n` results were
    already delivered before. -/
def photoOuts (c : String) (t : Nat) : Nat → List String → List Out
  | _, [] => []
  | n, u :: rest =>
      Out.sendPhoto c u (resultCaption (n + 1) t) :: photoOuts c t (n + 1) rest

/-- Recognizes a backend call in an effect trace. -/
def isBackendCall : Out → Bool
  | Out.backendCall _ _ _ => true
  | _ => false

/-- Recognizes a photo delivery in an effect trace. -/
def isSendPhoto : Out → Bool
  | Out.sendPhoto _ _ _ => true
  | _ => false

/-- Recognizes a per-item failure report of the generation loop. -/
def isFailureOut (c : String) : Out → Bool
  | Out.reply c2 m => c2 == c && (m == genErrorMsg || m == noImageMsg)
  | _ => false

/-- Per-call chunks of the generation loop trace: each iteration emits its
    backend call immediately followed by its outcome report. -/
def callChunks (o : Nat → BackendResult) (c b p : String) (t : Nat) :
    List String → Nat → Nat → List (List Out)
  | [], _, _ => []
  | ref :: rest, i, n =>
      match o i with
      | BackendResult.thrown =>
          [Out.backendCall b ref p, Out.reply c genErrorMsg] ::
            callChunks o c b p t rest (i + 1) n
      | BackendResult.ok resp =>
          match extractImageUrl resp with
          | some url =>
              [Out.backendCall b ref p, Out.sendPhoto c url (resultCaption (n + 1) t)] ::
                callChunks o c b p t rest (i + 1) (n + 1)
          | none =>
              [Out.backendCall b ref p, Out.reply c noImageMsg] ::
                callChunks o c b p t rest (i + 1) n

/-- Concrete day key used by the evaluation states below. -/
def dayW : String := "2026-10-11"

/-- Concrete chat id used by the evaluation states below. -/
def uW : String := "7"

/-- Concrete admin identity used by the evaluation states below. -/
def adminW : String := "1"

/-- Backend oracle whose every call throws. -/
def oThrowW : Nat → BackendResult := fun _ => BackendResult.thrown

/-- A backend response carrying an image URL in data.image_url. -/
def respW : WavespeedResponse :=
  { dataImageUrl := some "http://img.example/a.png", dataFirstUrl := none, outputFirstUrl := none }

/-- Backend oracle whose every call succeeds with respW. -/
def oOkW : Nat → BackendResult := fun _ => BackendResult.ok respW

/-- Backend oracle whose second call (index 1) throws and the rest succeed. -/
def oMixW : Nat → BackendResult :=
  fun i => if i = 1 then BackendResult.thrown else BackendResult.ok respW

/-- A ready-to-generate session: model name, one base image, two references. -/
def sessW : Session :=
  { modelName := some "Aria", baseImages := ["base1"], refImages := ["ref1", "ref2"],
    instagramHandles := [] }

/-- A session with a model name and two base images but no reference yet. -/
def sessTwoW : Session :=
  { modelName := some "Aria", baseImages := ["b1", "b2"], refImages := [],
    instagramHandles := [] }

/-- A registry with a single approved user uW. -/
def usersW : String → Option UserRecord :=
  fun k => if k = uW then
      some { status := UserStatus.approved, username := some "alice" }
    else none

/-- Approved user with 25 images used today and a ready session. -/
def stGateW : BotState :=
  { users := usersW, usage := fun d c => if d = dayW ∧ c = uW then 25 else 0,
    sessions := fun k => if k = uW then some sessW else none }

/-- Approved user with 23 images used today and a ready session. -/
def stEdgeW : BotState :=
  { users := usersW, usage := fun d c => if d = dayW ∧ c = uW then 23 else 0,
    sessions := fun k => if k = uW then some sessW else none }

/-- Approved user with no usage today and a ready session. -/
def stZeroW : BotState :=
  { users := usersW, usage := fun _ _ => 0, sessions := fun k => if k = uW then some sessW else none }

/-- Approved user with no session at all. -/
def stFreshW : BotState :=
  { users := usersW, usage := fun _ _ => 0, sessions := fun _ => none }

/-- Approved user whose session already holds two base images. -/
def stTwoW : BotState :=
  { users := usersW, usage := fun _ _ => 0, sessions := fun k => if k = uW then some sessTwoW else none }

theorem extractedFrom_length_le (o : Nat → BackendResult) :
    ∀ (l : List String) (i : Nat), (extractedFrom o l i).length ≤ l.length := by
  intro l
  induction l with
  | nil => intro i; simp [extractedFrom]
  | cons a rest ih =>
      intro i
      rw [extractedFrom]
      cases h : extractOf (o i) with
      | none => simpa using Nat.le_succ_of_le (ih (i + 1))
      | some u => simpa using ih (i + 1)

theorem runCalls_fst (o : Nat → BackendResult) (c b p : String) (t : Nat) :
    ∀ (l : List String) (i : Nat) (acc : List String),
      (runCalls o c b p t l i acc).1 = acc ++ extractedFrom o l i := by
  intro l
  induction l with
  | nil => intro i acc; simp [runCalls, extractedFrom]
  | cons ref rest ih =>
      intro i acc
      rw [runCalls, extractedFrom]
      cases ho : o i with
      | thrown => simp [extractOf, ho, ih]
      | ok resp =>
          cases hu : extractImageUrl resp with
          | none => simp [extractOf, ho, hu, ih]
          | some u => simp [extractOf, ho, hu, ih]

theorem runCalls_filter_call (o : Nat → BackendResult) (c b p : String) (t : Nat) :
    ∀ (l : List String) (i : Nat) (acc : List String),
      ((runCalls o c b p t l i acc).2.filter isBackendCall) =
        l.map (fun r => Out.backendCall b r p) := by
  intro l
  induction l with
  | nil => intro i acc; simp [runCalls]
  | cons ref rest ih =>
      intro i acc
      rw [runCalls]
      cases ho : o i with
      | thrown => simp [isBackendCall, ih]
      | ok resp =>
          cases hu : extractImageUrl resp with
          | none => simp [hu, isBackendCall, ih]
          | some u => simp [hu, isBackendCall, ih]

theorem runCalls_filter_photo (o : Nat → BackendResult) (c b p : String) (t : Nat) :
    ∀ (l : List String) (i : Nat) (acc : List String),
      ((runCalls o c b p t l i acc).2.filter isSendPhoto) =
        photoOuts c t acc.length (extractedFrom o l i) := by
  intro l
  induction l with
  | nil => intro i acc; simp [runCalls, extractedFrom, photoOuts]
  | cons ref rest ih =>
      intro i acc
      rw [runCalls, extractedFrom]
      cases ho : o i with
      | thrown => simp [extractOf, ho, isSendPhoto, ih]
      | ok resp =>
          cases hu : extractImageUrl resp with
          | none => simp [extractOf, ho, hu, isSendPhoto, ih]
          | some u =>
              simp [extractOf, ho, hu, isSendPhoto, ih, photoOuts]

theorem runCalls_count_fail (o : Nat → BackendResult) (c b p : String) (t : Nat) :
    ∀ (l : List String) (i : Nat) (acc : List String),
      ((runCalls o c b p t l i acc).2.countP (isFailureOut c)) =
        l.length - (extractedFrom o l i).length := by
  intro l
  induction l with
  | nil => intro i acc; simp [runCalls, extractedFrom]
  | cons ref rest ih =>
      intro i acc
      rw [runCalls, extractedFrom]
      cases ho : o i with
      | thrown =>
          have hle := extractedFrom_length_le o rest (i + 1)
          simp [extractOf, ho, isFailureOut, List.countP_cons, ih]
          omega
      | ok resp =>
          cases hu : extractImageUrl resp with
          | none =>
              have hle := extractedFrom_length_le o rest (i + 1)
              simp [extractOf, ho, hu, isFailureOut, List.countP_cons, ih]
              omega
          | some u =>
              simp [extractOf, ho, hu, isFailureOut, List.countP_cons, ih]

theorem runCalls_snd_chunks (o : Nat → BackendResult) (c b p : String) (t : Nat) :
    ∀ (l : List String) (i : Nat) (acc : List String),
      (runCalls o c b p t l i acc).2 = (callChunks o c b p t l i acc.length).flatten := by
  intro l
  induction l with
  | nil => intro i acc; simp [runCalls, callChunks]
  | cons ref rest ih =>
      intro i acc
      rw [runCalls, callChunks]
      cases ho : o i with
      | thrown => simp [ih]
      | ok resp =>
          cases hu : extractImageUrl resp with
          | none => simp [hu, ih]
          | some u => simp [hu, ih]

theorem callChunks_shape (o : Nat → BackendResult) (c b p : String) (t : Nat) :
    ∀ (l : List String) (i n : Nat) (ch : List Out), ch ∈ callChunks o c b p t l i n →
      ∃ r o2, ch = [Out.backendCall b r p, o2] := by
  intro l
  induction l with
  | nil => intro i n ch h; simp [callChunks] at h
  | cons ref rest ih =>
      intro i n ch h
      rw [callChunks] at h
      split at h
      · rcases List.mem_cons.mp h with h1 | h1
        · exact ⟨ref, _, h1⟩
        · exact ih _ _ ch h1
      · split at h
        · rcases List.mem_cons.mp h with h1 | h1
          · exact ⟨ref, _, h1⟩
          · exact ih _ _ ch h1
        · rcases List.mem_cons.mp h with h1 | h1
          · exact ⟨ref, _, h1⟩
          · exact ih _ _ ch h1

theorem flatMap_replicate_length (l : List String) (v : Nat) :
    (l.flatMap (fun r => List.replicate v r)).length = l.length * v := by
  induction l with
  | nil => simp
  | cons a rest ih => simp [ih]; ring

theorem callListOf_length (s : Session) : (callListOf s).length = planTotal s := by
  rw [callListOf, planTotal, flatMap_replicate_length]

theorem map_flatMap_replicate (f : String → Out) (l : List String) (v : Nat) :
    (l.flatMap (fun r => List.replicate v r)).map f =
      l.flatMap (fun r => List.replicate v (f r)) := by
  induction l with
  | nil => simp
  | cons a rest ih => simp [ih]

theorem generate_not_approved (LIMIT : Nat) (o : Nat → BackendResult) (today chatId : String)
    (st : BotState) (h : getUserStatus st.users chatId ≠ some UserStatus.approved) :
    generateHandler LIMIT o today chatId st = (st, [Out.reply chatId notApprovedMsg]) := by
  unfold generateHandler
  rw [if_pos h]

theorem generate_no_session (LIMIT : Nat) (o : Nat → BackendResult) (today chatId : String)
    (st : BotState) (hA : getUserStatus st.users chatId = some UserStatus.approved)
    (hS : st.sessions chatId = none) :
    generateHandler LIMIT o today chatId st = (st, [Out.reply chatId setModelFirstMsg]) := by
  unfold generateHandler
  rw [if_neg (by simp [hA]), hS]

theorem generate_falsy_model (LIMIT : Nat) (o : Nat → BackendResult) (today chatId : String)
    (st : BotState) (s : Session)
    (hA : getUserStatus st.users chatId = some UserStatus.approved)
    (hS : st.sessions chatId = some s) (hM : jsFalsyStr s.modelName = true) :
    generateHandler LIMIT o today chatId st = (st, [Out.reply chatId setModelFirstMsg]) := by
  unfold generateHandler
  rw [if_neg (by simp [hA]), hS]
  simp [hM]

theorem generate_no_base (LIMIT : Nat) (o : Nat → BackendResult) (today chatId : String)
    (st : BotState) (s : Session)
    (hA : getUserStatus st.users chatId = some UserStatus.approved)
    (hS : st.sessions chatId = some s) (hM : jsFalsyStr s.modelName = false)
    (hB : s.baseImages = []) :
    generateHandler LIMIT o today chatId st = (st, [Out.reply chatId needBaseMsg]) := by
  unfold generateHandler
  rw [if_neg (by simp [hA]), hS]
  simp [hM, hB]

theorem generate_no_ref (LIMIT : Nat) (o : Nat → BackendResult) (today chatId : String)
    (st : BotState) (s : Session)
    (hA : getUserStatus st.users chatId = some UserStatus.approved)
    (hS : st.sessions chatId = some s) (hM : jsFalsyStr s.modelName = false)
    (hB : s.baseImages ≠ []) (hR : s.refImages = []) :
    generateHandler LIMIT o today chatId st = (st, [Out.reply chatId needRefMsg]) := by
  have hb : 1 ≤ s.baseImages.length := List.length_pos.mpr hB
  unfold generateHandler
  rw [if_neg (by simp [hA]), hS]
  simp [hM, Nat.not_lt.mpr hb, hR]

theorem generate_quota_reject (LIMIT : Nat) (o : Nat → BackendResult) (today chatId : String)
    (st : BotState) (s : Session)
    (hA : getUserStatus st.users chatId = some UserStatus.approved)
    (hS : st.sessions chatId = some s) (hM : jsFalsyStr s.modelName = false)
    (hB : s.baseImages ≠ []) (hR : s.refImages ≠ [])
    (hQ : LIMIT < getUsageCount st.usage today chatId + planTotal s) :
    generateHandler LIMIT o today chatId st =
      (st, [Out.reply chatId
        (quotaMsg (getUsageCount st.usage today chatId) LIMIT (planTotal s))]) := by
  have hb : 1 ≤ s.baseImages.length := List.length_pos.mpr hB
  have hr : 1 ≤ s.refImages.length := List.length_pos.mpr hR
  unfold generateHandler
  rw [if_neg (by simp [hA]), hS]
  simp [hM, Nat.not_lt.mpr hb, Nat.not_lt.mpr hr, hQ]

theorem generate_admitted (LIMIT : Nat) (o : Nat → BackendResult) (today chatId : String)
    (st : BotState) (s : Session)
    (hA : getUserStatus st.users chatId = some UserStatus.approved)
    (hS : st.sessions chatId = some s) (hM : jsFalsyStr s.modelName = false)
    (hB : s.baseImages ≠ []) (hR : s.refImages ≠ [])
    (hQ : getUsageCount st.usage today chatId + planTotal s ≤ LIMIT) :
    generateHandler LIMIT o today chatId st =
      ({ st with
          usage := addUsage st.usage today chatId (planTotal s),
          sessions := fun k => if k = chatId then none else st.sessions k },
       Out.reply chatId (generatingMsg (planTotal s)) ::
         (runCalls o chatId (s.baseImages.headD "") (promptFor (s.modelName.getD ""))
            (planTotal s) (callListOf s) 0 []).2
         ++ [Out.reply chatId (doneMsg
              (runCalls o chatId (s.baseImages.headD "") (promptFor (s.modelName.getD ""))
                (planTotal s) (callListOf s) 0 []).1.length)]) := by
  have hb : 1 ≤ s.baseImages.length := List.length_pos.mpr hB
  have hr : 1 ≤ s.refImages.length := List.length_pos.mpr hR
  unfold generateHandler
  rw [if_neg (by simp [hA]), hS]
  simp [hM, Nat.not_lt.mpr hb, Nat.not_lt.mpr hr, Nat.not_lt.mpr hQ, getUsageCount]
  exact hQ

theorem usage_startHandler (c : String) (st : BotState) :
    (startHandler c st).1.usage = st.usage := rfl

theorem usage_callbackHandler (A : String) (d : Option String) (f fu : String) (st : BotState) :
    (callbackHandler A d f fu st).1.usage = st.usage := by
  unfold callbackHandler
  cases d with
  | none => rfl
  | some dd =>
      dsimp only
      split_ifs <;> rfl

theorem usage_modelHandler (t c : String) (st : BotState) :
    (modelHandler t c st).1.usage = st.usage := by
  unfold modelHandler
  dsimp only
  split_ifs <;> rfl

theorem usage_statusHandler (L : Nat) (td c : String) (st : BotState) :
    (statusHandler L td c st).1.usage = st.usage := rfl

theorem usage_fetchHandler (r : Except String (List String)) (t c : String) (st : BotState) :
    (fetchInstagramHandler r t c st).1.usage = st.usage := by
  unfold fetchInstagramHandler
  cases r with
  | error e => dsimp only; split_ifs <;> rfl
  | ok imgs => dsimp only; split_ifs <;> rfl

theorem usage_photoHandler (c un f : String) (st : BotState) :
    (photoHandler c un f st).1.usage = st.usage := by
  unfold photoHandler
  dsimp only
  split_ifs <;> rfl

theorem generate_usage_le (LIMIT : Nat) (o : Nat → BackendResult) (today chatId : String)
    (st : BotState) (h : ∀ d u, st.usage d u ≤ LIMIT) (d u : String) :
    (generateHandler LIMIT o today chatId st).1.usage d u ≤ LIMIT := by
  unfold generateHandler
  split_ifs with h1
  · exact h d u
  · cases hs : st.sessions chatId with
    | none => exact h d u
    | some s =>
        dsimp only
        split_ifs with h2 h3 h4 h5
        · exact h d u
        · exact h d u
        · exact h d u
        · exact h d u
        · dsimp only [addUsage]
          split_ifs with h6
          · simp only [getUsageCount] at h5
            omega
          · exact h d u

theorem step_usage_le (A : String) (L : Nat) (st : BotState)
    (h : ∀ d u, st.usage d u ≤ L) (e : Event) (d u : String) :
    (step A L st e).usage d u ≤ L := by
  cases e with
  | start c => rw [step, usage_startHandler]; exact h d u
  | callback dd f fu => rw [step, usage_callbackHandler]; exact h d u
  | modelCmd t c => rw [step, usage_modelHandler]; exact h d u
  | statusCmd td c => rw [step, usage_statusHandler]; exact h d u
  | fetchCmd r t c => rw [step, usage_fetchHandler]; exact h d u
  | generateCmd o td c => rw [step]; exact generate_usage_le L o td c st h d u
  | photo c un f => rw [step, usage_photoHandler]; exact h d u

theorem foldl_usage_le (A : String) (L : Nat) (evs : List Event) :
    ∀ st : BotState, (∀ d u, st.usage d u ≤ L) → ∀ d u,
      (evs.foldl (step A L) st).usage d u ≤ L := by
  induction evs with
  | nil => intro st h d u; exact h d u
  | cons e rest ih =>
      intro st h d u
      rw [List.foldl_cons]
      exact ih (step A L st e) (step_usage_le A L st h e) d u

/-- C1: with every generation precondition met (approved user, session with a
    truthy model name, base and reference images present), /generate is
    rejected — registry, ledger and session untouched, a single reply that
    reports the current usage and the daily limit, and no backend call —
    exactly when getUsageCount + requested total exceeds the daily limit;
    when getUsageCount + total is at most the limit (so in particular at the
    exact boundary) the batch is admitted and the ledger is incremented. -/
theorem C1_quota_gate (LIMIT : Nat) (o : Nat → BackendResult) (today chatId : String)
    (st : BotState) (s : Session)
    (hA : getUserStatus st.users chatId = some UserStatus.approved)
    (hS : st.sessions chatId = some s)
    (hM : jsFalsyStr s.modelName = false)
    (hB : s.baseImages ≠ []) (hR : s.refImages ≠ []) :
    (LIMIT < getUsageCount st.usage today chatId + planTotal s →
      generateHandler LIMIT o today chatId st =
        (st, [Out.reply chatId
          (quotaMsg (getUsageCount st.usage today chatId) LIMIT (planTotal s))])) ∧
    (getUsageCount st.usage today chatId + planTotal s ≤ LIMIT →
      (generateHandler LIMIT o today chatId st).1.usage today chatId =
        getUsageCount st.usage today chatId + planTotal s) := by
  constructor
  · intro hQ
    exact generate_quota_reject LIMIT o today chatId st s hA hS hM hB hR hQ
  · intro hQ
    rw [generate_admitted LIMIT o today chatId st s hA hS hM hB hR hQ]
    simp [addUsage, getUsageCount]

/-- Witness for C1 at daily limit 27: with 25 already used and a 4-image plan
    the request is rejected with the quota message; with 23 already used
    (23 + 4 = 27, the exact boundary) it is admitted and usage becomes 27. -/
theorem C1_quota_gate_witness :
    generateHandler 27 oThrowW dayW uW stGateW =
      (stGateW, [Out.reply uW (quotaMsg 25 27 4)]) ∧
    (generateHandler 27 oThrowW dayW uW stEdgeW).1.usage dayW uW = 27 := by
  constructor
  · exact (C1_quota_gate 27 oThrowW dayW uW stGateW sessW (by decide) (by decide)
      (by decide) (by decide) (by decide)).1 (by decide)
  · exact (C1_quota_gate 27 oThrowW dayW uW stEdgeW sessW (by decide) (by decide)
      (by decide) (by decide) (by decide)).2 (by decide)

/-- C2: for an admitted batch, every requested variation gets exactly one
    backend call even across failures (the loop continues, no retry), each
    failed iteration is reported as a per-item failure (their number is the
    total minus the successes), usage is incremented by the full requested
    total, the session is deleted, and the final summary reports the number
    of images actually produced. -/
theorem C2_batch_accounting (LIMIT : Nat) (o : Nat → BackendResult)
    (today chatId : String) (st : BotState) (s : Session)
    (hA : getUserStatus st.users chatId = some UserStatus.approved)
    (hS : st.sessions chatId = some s)
    (hM : jsFalsyStr s.modelName = false)
    (hB : s.baseImages ≠ []) (hR : s.refImages ≠ [])
    (hQ : getUsageCount st.usage today chatId + planTotal s ≤ LIMIT) :
    (generateHandler LIMIT o today chatId st).1.usage today chatId =
        getUsageCount st.usage today chatId + planTotal s ∧
    (generateHandler LIMIT o today chatId st).1.sessions chatId = none ∧
    ((runCalls o chatId (s.baseImages.headD "") (promptFor (s.modelName.getD ""))
        (planTotal s) (callListOf s) 0 []).2.filter isBackendCall).length = planTotal s ∧
    ((runCalls o chatId (s.baseImages.headD "") (promptFor (s.modelName.getD ""))
        (planTotal s) (callListOf s) 0 []).2.countP (isFailureOut chatId)) =
        planTotal s - (extractedFrom o (callListOf s) 0).length ∧
    (generateHandler LIMIT o today chatId st).2 =
      Out.reply chatId (generatingMsg (planTotal s)) ::
        (runCalls o chatId (s.baseImages.headD "") (promptFor (s.modelName.getD ""))
          (planTotal s) (callListOf s) 0 []).2
        ++ [Out.reply chatId (doneMsg (extractedFrom o (callListOf s) 0).length)] := by
  refine ⟨?_, ?_, ?_, ?_, ?_⟩
  · rw [generate_admitted LIMIT o today chatId st s hA hS hM hB hR hQ]
    simp [addUsage, getUsageCount]
  · rw [generate_admitted LIMIT o today chatId st s hA hS hM hB hR hQ]
    simp
  · rw [runCalls_filter_call]
    simp [callListOf_length]
  · rw [runCalls_count_fail, callListOf_length]
  · rw [generate_admitted LIMIT o today chatId st s hA hS hM hB hR hQ,
      runCalls_fst]
    simp

/-- Witness for C2: a 4-image batch whose second call throws still issues all
    four calls, increments usage by 4 and clears the session. -/
theorem C2_batch_accounting_witness :
    (generateHandler 27 oMixW dayW uW stZeroW).1.usage dayW uW = 4 ∧
    (generateHandler 27 oMixW dayW uW stZeroW).1.sessions uW = none := by
  have h := C2_batch_accounting 27 oMixW dayW uW stZeroW sessW (by decide) (by decide)
    (by decide) (by decide) (by decide) (by decide)
  exact ⟨h.1, h.2.1⟩

/-- C3: the generation plan selects exactly the first min(3, number of
    references) reference images in order (a prefix of refImages of that
    length), uses 2 variations per selected reference, and requests
    min(3, len) * 2 images in total. -/
theorem C3_plan_shape (s : Session) (_hR : s.refImages ≠ []) :
    (∃ t, s.refImages = planRefs s ++ t) ∧
    (planRefs s).length = min 3 s.refImages.length ∧
    variationsPerRef = 2 ∧
    planTotal s = min 3 s.refImages.length * 2 := by
  refine ⟨⟨s.refImages.drop 3, ?_⟩, ?_, rfl, ?_⟩
  · rw [planRefs]
    exact (List.take_append_drop 3 s.refImages).symm
  · rw [planRefs]
    exact List.length_take 3 s.refImages
  · rw [planTotal, planRefs, List.length_take, variationsPerRef]

/-- Witness for C3 on a session holding two reference images. -/
theorem C3_plan_shape_witness :
    (∃ t, sessW.refImages = planRefs sessW ++ t) ∧
    (planRefs sessW).length = min 3 sessW.refImages.length ∧
    variationsPerRef = 2 ∧
    planTotal sessW = min 3 sessW.refImages.length * 2 :=
  C3_plan_shape sessW (by decide)

/-- C4: the generate preconditions are checked in the fixed order approved,
    session-with-model-name, base images present, reference images present;
    each first failed check returns the state completely unchanged with a
    single distinct rejection reply and no backend call, and the four
    rejection messages are pairwise distinct. -/
theorem C4_precondition_order (LIMIT : Nat) (o : Nat → BackendResult)
    (today chatId : String) (st : BotState) :
    (getUserStatus st.users chatId ≠ some UserStatus.approved →
      generateHandler LIMIT o today chatId st = (st, [Out.reply chatId notApprovedMsg])) ∧
    (getUserStatus st.users chatId = some UserStatus.approved →
      st.sessions chatId = none →
      generateHandler LIMIT o today chatId st = (st, [Out.reply chatId setModelFirstMsg])) ∧
    (∀ s : Session, getUserStatus st.users chatId = some UserStatus.approved →
      st.sessions chatId = some s → jsFalsyStr s.modelName = true →
      generateHandler LIMIT o today chatId st = (st, [Out.reply chatId setModelFirstMsg])) ∧
    (∀ s : Session, getUserStatus st.users chatId = some UserStatus.approved →
      st.sessions chatId = some s → jsFalsyStr s.modelName = false →
      s.baseImages = [] →
      generateHandler LIMIT o today chatId st = (st, [Out.reply chatId needBaseMsg])) ∧
    (∀ s : Session, getUserStatus st.users chatId = some UserStatus.approved →
      st.sessions chatId = some s → jsFalsyStr s.modelName = false →
      s.baseImages ≠ [] → s.refImages = [] →
      generateHandler LIMIT o today chatId st = (st, [Out.reply chatId needRefMsg])) ∧
    (notApprovedMsg ≠ setModelFirstMsg ∧ notApprovedMsg ≠ needBaseMsg ∧
     notApprovedMsg ≠ needRefMsg ∧ setModelFirstMsg ≠ needBaseMsg ∧
     setModelFirstMsg ≠ needRefMsg ∧ needBaseMsg ≠ needRefMsg) := by
  refine ⟨?_, ?_, ?_, ?_, ?_, by decide⟩
  · intro h
    exact generate_not_approved LIMIT o today chatId st h
  · intro hA hS
    exact generate_no_session LIMIT o today chatId st hA hS
  · intro s hA hS hM
    exact generate_falsy_model LIMIT o today chatId st s hA hS hM
  · intro s hA hS hM hB
    exact generate_no_base LIMIT o today chatId st s hA hS hM hB
  · intro s hA hS hM hB hR
    exact generate_no_ref LIMIT o today chatId st s hA hS hM hB hR

/-- Witness for C4: an unknown user is rejected with the not-approved reply
    and the state is untouched. -/
theorem C4_precondition_order_witness :
    generateHandler 27 oThrowW dayW uW initState =
      (initState, [Out.reply uW notApprovedMsg]) :=
  (C4_precondition_order 27 oThrowW dayW uW initState).1 (by decide)

/-- C5: for an approved user, an incoming photo is appended to baseImages
    exactly when the session has no model name or fewer than two base images,
    and is appended to refImages otherwise; the other bucket is untouched in
    both cases. The hypothesis hM records that /model never stores an empty
    model name, so a stored model name is a truthy string. -/
theorem C5_photo_classifier (chatId username fileUrl : String) (st : BotState) (s : Session)
    (hA : getUserStatus st.users chatId = some UserStatus.approved)
    (hS : (st.sessions chatId).getD freshSession = s)
    (hM : s.modelName ≠ some "") :
    ((s.modelName = none ∨ s.baseImages.length < 2) →
      (photoHandler chatId username fileUrl st).1.sessions chatId =
        some { s with baseImages := s.baseImages ++ [fileUrl] } ∧
      (photoHandler chatId username fileUrl st).2 =
        [Out.reply chatId (baseAddedMsg (s.baseImages.length + 1))]) ∧
    (s.modelName ≠ none → ¬ s.baseImages.length < 2 →
      (photoHandler chatId username fileUrl st).1.sessions chatId =
        some { s with refImages := s.refImages ++ [fileUrl] } ∧
      (photoHandler chatId username fileUrl st).2 =
        [Out.reply chatId (refAddedMsg (s.refImages.length + 1))]) := by
  constructor
  · intro hC
    have hc : (jsFalsyStr s.modelName = true) ∨ s.baseImages.length < 2 := by
      rcases hC with h | h
      · exact Or.inl (by rw [h]; rfl)
      · exact Or.inr h
    unfold photoHandler
    rw [if_neg (by simp [hA]), hS, if_pos hc]
    simp
  · intro hM2 hL
    have hc : ¬ ((jsFalsyStr s.modelName = true) ∨ s.baseImages.length < 2) := by
      intro hcon
      rcases hcon with h | h
      · rcases hx : s.modelName with _ | m
        · exact hM2 hx
        · rw [hx] at h
          simp only [jsFalsyStr, beq_iff_eq] at h
          exact hM (by rw [hx, h])
      · exact hL h
    unfold photoHandler
    rw [if_neg (by simp [hA]), hS, if_neg hc]
    simp

/-- Witness for C5: from a fresh session the first photo is stored as a base
    image even with no model name set; once the model name is set and two
    base images exist, the next photo is stored as a reference image. -/
theorem C5_photo_classifier_witness :
    (photoHandler uW ("alice") ("f1") stFreshW).1.sessions uW =
      some { modelName := none, baseImages := ["f1"], refImages := [],
             instagramHandles := [] } ∧
    (photoHandler uW ("alice") ("f3") stTwoW).1.sessions uW =
      some { modelName := some "Aria", baseImages := ["b1", "b2"], refImages := ["f3"],
             instagramHandles := [] } := by
  constructor
  · exact ((C5_photo_classifier uW ("alice") ("f1") stFreshW freshSession (by decide)
      (by decide) (by decide)).1 (Or.inl rfl)).1
  · exact ((C5_photo_classifier uW ("alice") ("f3") stTwoW sessTwoW (by decide)
      (by decide) (by decide)).2 (by decide) (by decide)).1

theorem lead_head (c : Char) (p b : List Char) (h : lead (c :: p) b = true) :
    ∃ t, b = c :: t := by
  cases b with
  | nil => simp [lead] at h
  | cons x xs =>
      simp only [lead, Bool.and_eq_true, beq_iff_eq] at h
      exact ⟨xs, by rw [h.1]⟩

theorem not_request_of (d : String)
    (h : jsStartsWith d ("approve_") = true ∨ jsStartsWith d ("deny_") = true) :
    jsStartsWith d ("request_") = false := by
  unfold jsStartsWith at h ⊢
  have hr : ("request_").data = 'r' :: ['e', 'q', 'u', 'e', 's', 't', '_'] := by decide
  rcases h with h | h
  · have ha : ("approve_").data = 'a' :: ['p', 'p', 'r', 'o', 'v', 'e', '_'] := by decide
    rw [ha] at h
    obtain ⟨t, ht⟩ := lead_head 'a' _ _ h
    rw [hr, ht]
    simp only [lead]
    rw [show ('r' == 'a') = false from by decide]
    rfl
  · have hd : ("deny_").data = 'd' :: ['e', 'n', 'y', '_'] := by decide
    rw [hd] at h
    obtain ⟨t, ht⟩ := lead_head 'd' _ _ h
    rw [hr, ht]
    simp only [lead]
    rw [show ('r' == 'd') = false from by decide]
    rfl

/-- C6: an Approve or Deny button event whose invoker is not the configured
    admin identity leaves the whole state (in particular the user registry)
    unchanged and only acknowledges the callback: no status change, no
    notification to the target user, no error surfaced. -/
theorem C6_admin_guard (ADMIN d fromId fromUsername : String) (st : BotState)
    (h1 : jsStartsWith d ("approve_") = true ∨ jsStartsWith d ("deny_") = true)
    (h2 : fromId ≠ ADMIN) :
    callbackHandler ADMIN (some d) fromId fromUsername st = (st, [Out.answerCb none]) := by
  have hreq : jsStartsWith d ("request_") = false := not_request_of d h1
  have hbeq : (fromId == ADMIN) = false := by simp [h2]
  unfold callbackHandler
  dsimp only
  rw [if_neg (by simp [hreq]), if_neg (by simp [hbeq]), if_neg (by simp [hbeq])]

/-- Witness for C6: a non-admin pressing Approve changes nothing. -/
theorem C6_admin_guard_witness :
    callbackHandler adminW (some ("approve_5")) ("999") ("bob") initState =
      (initState, [Out.answerCb none]) :=
  C6_admin_guard adminW ("approve_5") ("999") ("bob") initState (Or.inl (by decide)) (by decide)

/-- C7: ensureUserPending on a user with no record creates exactly one record
    (all other keys untouched), with status pending, and returns true; calling
    it again — or calling it for any user whose record exists — returns false
    and leaves the registry unchanged. -/
theorem C7_ensure_pending (users : String → Option UserRecord) (chatId username : String) :
    (users chatId = none →
      (ensureUserPending users chatId username).1 = true ∧
      getUserStatus (ensureUserPending users chatId username).2 chatId =
        some UserStatus.pending ∧
      (∀ k, k ≠ chatId → (ensureUserPending users chatId username).2 k = users k) ∧
      (ensureUserPending (ensureUserPending users chatId username).2 chatId username).1 =
        false ∧
      (ensureUserPending (ensureUserPending users chatId username).2 chatId username).2 =
        (ensureUserPending users chatId username).2) ∧
    (users chatId ≠ none →
      (ensureUserPending users chatId username).1 = false ∧
      (ensureUserPending users chatId username).2 = users) := by
  constructor
  · intro h
    unfold ensureUserPending
    rw [h]
    refine ⟨rfl, ?_, ?_, ?_, ?_⟩
    · simp [getUserStatus]
    · intro k hk
      simp [hk]
    · simp
    · simp
  · intro h
    cases hx : users chatId with
    | none => exact absurd hx h
    | some r =>
        unfold ensureUserPending
        rw [hx]
        exact ⟨rfl, rfl⟩

/-- Witness for C7: creating a pending record for a never-seen user. -/
theorem C7_ensure_pending_witness :
    (ensureUserPending initState.users uW ("alice")).1 = true ∧
    getUserStatus (ensureUserPending initState.users uW ("alice")).2 uW =
      some UserStatus.pending := by
  have h := (C7_ensure_pending initState.users uW ("alice")).1 (by decide)
  exact ⟨h.1, h.2.1⟩

/-- C8: for an admitted batch, the backend calls of the whole trace are
    exactly two per selected reference in plan order, each with the first
    base image and the model-name prompt; the delivered photos are exactly
    the successful extractions in call order, tagged with their delivery
    position out of the requested total; and the loop trace decomposes into
    per-call chunks in which each outcome immediately follows its own
    backend call. -/
theorem C8_order_and_delivery (LIMIT : Nat) (o : Nat → BackendResult)
    (today chatId : String) (st : BotState) (s : Session)
    (hA : getUserStatus st.users chatId = some UserStatus.approved)
    (hS : st.sessions chatId = some s)
    (hM : jsFalsyStr s.modelName = false)
    (hB : s.baseImages ≠ []) (hR : s.refImages ≠ [])
    (hQ : getUsageCount st.usage today chatId + planTotal s ≤ LIMIT) :
    ((generateHandler LIMIT o today chatId st).2.filter isBackendCall =
      (planRefs s).flatMap (fun r => List.replicate variationsPerRef
        (Out.backendCall (s.baseImages.headD "") r (promptFor (s.modelName.getD ""))))) ∧
    ((generateHandler LIMIT o today chatId st).2.filter isSendPhoto =
      photoOuts chatId (planTotal s) 0 (extractedFrom o (callListOf s) 0)) ∧
    (∃ chunks : List (List Out),
      (generateHandler LIMIT o today chatId st).2 =
        Out.reply chatId (generatingMsg (planTotal s)) :: chunks.flatten
          ++ [Out.reply chatId (doneMsg (extractedFrom o (callListOf s) 0).length)] ∧
      ∀ ch ∈ chunks, ∃ r o2,
        ch = [Out.backendCall (s.baseImages.headD "") r (promptFor (s.modelName.getD "")), o2]) := by
  rw [generate_admitted LIMIT o today chatId st s hA hS hM hB hR hQ]
  refine ⟨?_, ?_, ?_⟩
  · simp only [List.filter_cons, List.filter_append]
    rw [runCalls_filter_call]
    simp [isBackendCall, callListOf, map_flatMap_replicate]
  · simp only [List.filter_cons, List.filter_append]
    rw [runCalls_filter_photo]
    simp [isSendPhoto]
  · refine ⟨callChunks o chatId (s.baseImages.headD "") (promptFor (s.modelName.getD ""))
      (planTotal s) (callListOf s) 0 0, ?_, ?_⟩
    · rw [runCalls_snd_chunks, runCalls_fst]
      simp
    · intro ch hch
      exact callChunks_shape o chatId (s.baseImages.headD "") (promptFor (s.modelName.getD ""))
        (planTotal s) (callListOf s) 0 0 ch hch

/-- Witness for C8: an all-success 4-image batch issues its calls in plan
    order ref1, ref1, ref2, ref2 with the first base image and the prompt. -/
theorem C8_order_and_delivery_witness :
    (generateHandler 27 oOkW dayW uW stZeroW).2.filter isBackendCall =
      (planRefs sessW).flatMap (fun r => List.replicate variationsPerRef
        (Out.backendCall (sessW.baseImages.headD "") r (promptFor (sessW.modelName.getD "")))) :=
  (C8_order_and_delivery 27 oOkW dayW uW stZeroW sessW (by decide) (by decide)
    (by decide) (by decide) (by decide) (by decide)).1

/-- C9: from the empty stores, after any sequence of handler events processed
    to completion, the usage ledger count of every (day, user) pair is at
    most the daily limit: the generate handler is the only mutator of the
    ledger and only adds the quantity it successfully checked. -/
theorem C9_usage_invariant (ADMIN : String) (LIMIT : Nat) (evs : List Event)
    (d u : String) : (run ADMIN LIMIT evs).usage d u ≤ LIMIT :=
  foldl_usage_le ADMIN LIMIT evs initState (fun _ _ => Nat.zero_le _) d u

/-- C10: /model with an empty argument string replies with the usage hint and
    changes nothing, before the approval check ever runs; the not-approved
    rejection can only be produced when a non-empty model name was supplied. -/
theorem C10_model_arg_before_auth (text chatId : String) (st : BotState) :
    (parseModelName text = "" →
      modelHandler text chatId st = (st, [Out.reply chatId usageHintModelMsg])) ∧
    (parseModelName text ≠ "" →
      getUserStatus st.users chatId ≠ some UserStatus.approved →
      modelHandler text chatId st = (st, [Out.reply chatId notApprovedYetMsg])) := by
  constructor
  · intro h
    unfold modelHandler
    dsimp only
    rw [if_pos h]
  · intro h1 h2
    unfold modelHandler
    dsimp only
    rw [if_neg h1, if_pos h2]

/-- Witness for C10: a bare /model from an unapproved user gets the usage
    hint, not the approval rejection; /model Aria from the same user gets the
    approval rejection. -/
theorem C10_model_arg_before_auth_witness :
    modelHandler ("/model") uW initState = (initState, [Out.reply uW usageHintModelMsg]) ∧
    modelHandler ("/model Aria") uW initState =
      (initState, [Out.reply uW notApprovedYetMsg]) :=
  ⟨(C10_model_arg_before_auth ("/model") uW initState).1 (by decide),
   (C10_model_arg_before_auth ("/model Aria") uW initState).2 (by decide) (by decide)⟩

end Auto40
